import Mathlib

/-!
Shallow embedding of the `dqp` package (src/dqp/disk_cache.py, src/dqp/queue.py,
src/dqp/storage.py) and proofs about the behaviour its specification claims.

Modelling conventions:
* Python values handled by the msgpack codec are the inductive `PyValue`.
  msgpack-python's `Packer` (used with default options) serialises a tuple as an
  array, so decoding a packed tuple yields a list: the round trip through the
  codec is the function `wire` below.
* A cache file is modelled as the list of records it holds, in order; a file
  holding the records passed to `packer.pack` decodes (via `msgpack.Unpacker`)
  to their `wire` images.  A missing file is `Option.none`.
* Generators are modelled at full-consumption granularity: a call that Python
  exposes as a lazy iterator is a function returning the whole yielded list.
* Filesystem mutation is explicit: functions return the new file state and,
  for the queue sink, the list of filesystem actions performed.
-/

namespace DQP

mutual

/-- Python values as the msgpack codec sees them: the payload type of
`disk_cache.save` / `tee` / `scan` / `load`. -/
inductive PyValue where
  | nil
  | boolean (b : Bool)
  | int (n : Int)
  | str (s : String)
  | list (xs : PyList)
  | tuple (xs : PyList)
  | dict (kvs : PyDict)

/-- A Python list/tuple body (kept mutually inductive with `PyValue` so that
recursion over nested containers is structural). -/
inductive PyList where
  | nil
  | cons (v : PyValue) (rest : PyList)

/-- A Python dict body with string keys. -/
inductive PyDict where
  | nil
  | cons (k : String) (v : PyValue) (rest : PyDict)

end

mutual

/-- What one msgpack round trip does to a value: `msgpack.Packer` (default
options) packs a tuple as an array, so the decoder returns a list in its
place; every other constructor survives unchanged. -/
def wire : PyValue → PyValue
  | .nil => .nil
  | .boolean b => .boolean b
  | .int n => .int n
  | .str s => .str s
  | .list xs => .list (wireL xs)
  | .tuple xs => .list (wireL xs)
  | .dict kvs => .dict (wireD kvs)

/-- Map `wire` over a list body. -/
def wireL : PyList → PyList
  | .nil => .nil
  | .cons v rest => .cons (wire v) (wireL rest)

/-- Map `wire` over a dict body. -/
def wireD : PyDict → PyDict
  | .nil => .nil
  | .cons k v rest => .cons k (wire v) (wireD rest)

end

mutual

/-- A value containing no tuple at any depth: exactly the values the codec
round-trips unchanged ("decoder-preserving" values). -/
def tupleFree : PyValue → Bool
  | .nil => true
  | .boolean _ => true
  | .int _ => true
  | .str _ => true
  | .list xs => tupleFreeL xs
  | .tuple _ => false
  | .dict kvs => tupleFreeD kvs

/-- Conjunction of `tupleFree` over a list body. -/
def tupleFreeL : PyList → Bool
  | .nil => true
  | .cons v rest => tupleFree v && tupleFreeL rest

/-- Conjunction of `tupleFree` over a dict body. -/
def tupleFreeD : PyDict → Bool
  | .nil => true
  | .cons _ v rest => tupleFree v && tupleFreeD rest

end

/-- Top-level tuple check `isinstance(value, tuple)` performed by `save` and `tee`. -/
def isTuple : PyValue → Bool
  | .tuple _ => true
  | _ => false


/-! ## disk_cache.py

A cache location's state is `Option (List PyValue)`: `none` when no file
exists at the location, `some rs` when the file holds the packed records
`rs` in write order.  Decoding the file applies `wire` to each record. -/

namespace DiskCache

/-- The `ValueError` message raised for tuples in `save` and `tee`. -/
def tupleErrorMsg : String :=
  "msgpack does not support tuples, they would be read back as lists"

/-- Model of `scan(location)`: decode every record of the file in order
(`for value in msgpack.Unpacker(disk_cache): yield value`). -/
def scan (file : List PyValue) : List PyValue :=
  file.map wire

/-- The loop body of `tee`: `written` are the records already packed to the
cache file, `yielded` the values already handed to the consumer.  A top-level
tuple raises `ValueError`; the handler `location.unlink(missing_ok=True)`
removes the partial file (cache state `none`) and re-raises. -/
def teeGo (written yielded : List PyValue) :
    List PyValue → Option (List PyValue) × Except String (List PyValue)
  | [] => (some written, .ok yielded)
  | v :: rest =>
    if isTuple v then (none, .error tupleErrorMsg)
    else teeGo (written ++ [v]) (yielded ++ [v]) rest

/-- Model of `tee(iterable, location)`: write each value to the cache file while
yielding it, at full-consumption granularity.  Returns the final cache state
and either the yielded values or the raised error. -/
def tee (xs : List PyValue) : Option (List PyValue) × Except String (List PyValue) :=
  teeGo [] [] xs

/-- Model of `_wrapper(*args, **kwds)` of `cached_iter`: `produced` is what
`user_function(*args, **kwds)` yields.  `if not location.exists(): return
tee(...)` else `return scan(location)`. -/
def cachedCall (cache : Option (List PyValue)) (produced : List PyValue) :
    Option (List PyValue) × Except String (List PyValue) :=
  match cache with
  | none => tee produced
  | some file => (some file, .ok (scan file))

/-- Model of `save(location, obj, append)`: a top-level tuple raises `ValueError`
before the file is opened (cache state unchanged); otherwise the packed
object is appended to (`"ab"`) or overwrites (`"wb"`) the file. -/
def save (cache : Option (List PyValue)) (obj : PyValue) (append : Bool) :
    Option (List PyValue) × Except String Unit :=
  if isTuple obj then (cache, .error tupleErrorMsg)
  else if append then (some (cache.getD [] ++ [obj]), .ok ())
  else (some [obj], .ok ())

/-- Model of `load(location)`: `for value in msgpack.Unpacker(disk_cache): return
value` returns the first decoded record; an empty file falls through to an
implicit `None`; `FileNotFoundError` is caught and `None` returned. -/
def load (cache : Option (List PyValue)) : Option PyValue :=
  match cache with
  | none => none
  | some file => (scan file).head?

end DiskCache

/-! ## queue.py

A queue directory is modelled as the list produced by
`Source.queue_filenames()`: the relative file paths in the deterministic
sorted-walk order, each paired with the records the file holds.  Records are
an abstract type `δ` (the queue payload dicts).  The `Sink` side is modelled
as explicit state plus the list of filesystem actions an operation performs. -/

namespace Queue

/-- Python `str.startswith` over the character lists of the two strings. -/
def startswithL : List Char → List Char → Bool
  | _, [] => true
  | [], _ :: _ => false
  | c :: s, p :: ps => c == p && startswithL s ps

/-- `filename.startswith(queue_filename_prefix)`. -/
def startswith (s pre : String) : Bool :=
  startswithL s.data pre.data

/-- Model of `input_path.rstrip` with the slash character: drop trailing slashes. -/
def rstripSlash (s : String) : String :=
  String.mk ((s.data.reverse.dropWhile (fun c => c == '/')).reverse)

variable {δ : Type}

/-- Model of `Source.dicts_from(filename)`: the records of one queue file with their
0-based indices (`for msg in msgpack.Unpacker(queue_file): yield filename,
idx, msg`). -/
def dicts_from (f : String × List δ) : List (String × Nat × δ) :=
  f.2.enum.map (fun p => (f.1, p.1, p.2))

/-- Model of `Source.all_dict()`: `chain.from_iterable(map(self.dicts_from,
self.queue_filenames()))`. -/
def all_dict (files : List (String × List δ)) : List (String × Nat × δ) :=
  (files.map dicts_from).flatten

/-- Model of `Source.all_dict_from(queue_filename_prefix, idx)`: drop queue files
until one whose name starts with the prefix, then drop elements of the
flattened record stream while their in-file index is `< idx`. -/
def all_dict_from (files : List (String × List δ)) (pre : String) (idx : Nat) :
    List (String × Nat × δ) :=
  let queueIter := files.dropWhile (fun f => ! startswith f.1 pre)
  ((queueIter.map dicts_from).flatten).dropWhile (fun el => decide (el.2.1 < idx))

/-- Model of `Source.__iter__`: `all_dict_from(*starting_from)` when a cursor is set,
else `all_dict()`. -/
def sourceIterate (files : List (String × List δ)) :
    Option (String × Nat) → List (String × Nat × δ)
  | some c => all_dict_from files c.1 c.2
  | none => all_dict files

/-- Value of `self.last` after a consumer took the given delivered prefix:
`dicts_from` assigns `self.last = filename, idx` before each yield, so after
`k` deliveries `last` is the `(file, index)` of the `k`-th record. -/
def lastAfter (delivered : List (String × Nat × δ)) : Option (String × Nat) :=
  delivered.getLast?.map (fun e => (e.1, e.2.1))

/-- Model of `Source.unlink_to(queue_filename_prefix)`.  Result on success:
`(remaining files, unlinked files, returned value)` — the function body ends
without a `return`, so the returned value is Python `None`, modelled as the
constant `none` in the third component. -/
def unlink_to (files : List String) (last : Option (String × Nat))
    (pre? : Option String) : Except String (List String × List String × Option Nat) :=
  let p? : Option String :=
    match pre?, last with
    | none, some l => some l.1
    | p, _ => p
  match p? with
  | none => .error "Could not unlink to unknown prefix"
  | some p =>
    match files.find? (fun f => startswith f p) with
    | none => .error "Queue filename prefix was not found in the queue filenames"
    | some _ =>
      .ok (files.dropWhile (fun f => ! startswith f p),
        files.takeWhile (fun f => ! startswith f p), none)

/-- Constant `QUEUE_FILE_HASH_SEPARATOR` of queue.py. -/
def QUEUE_FILE_HASH_SEPARATOR : String := "_"

/-- The mutable state of a `Sink`: `hashInput` is the byte stream fed to the
running `blake2s` (`self.output_hash.update(msg)` per write), timestamps are
seconds.  `pack` (msgpack) and `hexdigest` (blake2s) are external
collaborators passed as parameters to the operations below. -/
structure SinkState where
  basePath : String
  headTimeoutSeconds : Nat
  outputPath : String
  outputIndex : Nat
  hashInput : List Nat
  lastOpenTime : Nat
deriving DecidableEq

/-- One filesystem mutation performed by the sink. -/
inductive FsAction where
  | create (path : String)
  | append (path : String) (bytes : List Nat)
  | rename (src : String) (dst : String)
  | unlink (path : String)
deriving DecidableEq

/-- Model of `Sink.open(now)` with `fmt` standing for
`now.strftime("%Y/%m/%d/%H%M%S")`: reset index, running hash and
`last_open_time`, create the new live file. -/
def sinkOpen (basePath : String) (timeout : Nat) (fmt : Nat → String) (now : Nat) :
    SinkState × List FsAction :=
  let nowPath := basePath ++ "/" ++ fmt now
  (⟨basePath, timeout, nowPath, 0, [], now⟩, [.create nowPath])

/-- Model of `Sink.close()`: with records present, rename the live file to
`output_path + "_" + output_hash.hexdigest()`; otherwise unlink it. -/
def sinkClose (hexdigest : List Nat → String) (s : SinkState) : List FsAction :=
  if s.outputIndex > 0 then
    [.rename s.outputPath
      (s.outputPath ++ QUEUE_FILE_HASH_SEPARATOR ++ hexdigest s.hashInput)]
  else
    [.unlink s.outputPath]

/-- Model of `Sink.write_dict(dictionary_value)`: pack, append, flush, bump the index,
update the running hash; then rotate (`close()` + `open(datetime.now())`)
when `last_open_time + head_timeout_seconds < now`.  `now` is `time.time()`
at the write, `rotNow` the wall clock a rotation would reopen at. -/
def write_dict (pack : δ → List Nat) (hexdigest : List Nat → String)
    (fmt : Nat → String) (s : SinkState) (d : δ) (now rotNow : Nat) :
    SinkState × List FsAction :=
  let msg := pack d
  let s1 : SinkState :=
    { s with outputIndex := s.outputIndex + 1, hashInput := s.hashInput ++ msg }
  if s.lastOpenTime + s.headTimeoutSeconds < now then
    let closed := sinkClose hexdigest s1
    let opened := sinkOpen s.basePath s.headTimeoutSeconds fmt rotNow
    (opened.1, FsAction.append s.outputPath msg :: (closed ++ opened.2))
  else
    (s1, [FsAction.append s.outputPath msg])

/-- A sequence of `write_dict` calls, each with its own clock readings. -/
def writeAll (pack : δ → List Nat) (hexdigest : List Nat → String)
    (fmt : Nat → String) (s : SinkState) :
    List (δ × Nat × Nat) → SinkState × List FsAction
  | [] => (s, [])
  | (d, now, rotNow) :: rest =>
    let step := write_dict pack hexdigest fmt s d now rotNow
    let restRun := writeAll pack hexdigest fmt step.1 rest
    (restRun.1, step.2 ++ restRun.2)

/-- Model of `Source.__init__`: strip the trailing separator, assert the path is
non-empty, record the cursor.  Performs no filesystem access. -/
def sourceInit (input_path : String) (starting : Option (String × Nat)) :
    Except String (String × Option (String × Nat)) :=
  let p := rstripSlash input_path
  if p = "" then .error "input path was empty after stripping the last /"
  else .ok (p, starting)

/-- Model of `Project.open_source(name, starting_from)`: builds the source over
the child path `queue/` + name of the storage folder.  The body contains no
existence check of that directory. -/
def openSource (basePath name : String) (starting : Option (String × Nat)) :
    Except String (String × Option (String × Nat)) :=
  sourceInit (basePath ++ "/" ++ "queue/" ++ name) starting

/-- Model of `Project.continue_source(name)`: with checkpoint vars present, the cursor
is `(last_filename, last_idx + 1)`; with them absent, `None`.  The two vars
entries written together by `store_last` are modelled as one optional pair. -/
def continueStart : Option (String × Nat) → Option (String × Nat)
  | none => none
  | some c => some (c.1, c.2 + 1)

/-- One registered closable: its name and `none` when its call returns,
`some e` when it raises `e`. -/
def runClosers (ran : List String) :
    List (String × Option String) → List String × Option String
  | [] => (ran, none)
  | (name, none) :: rest => runClosers (ran ++ [name]) rest
  | (name, some e) :: _ => (ran ++ [name], some e)

/-- Model of `Project.close()`: `for closer in self.closeables: closer()` then
`self.storage_folder.close()`.  There is no exception handling: the first
raising closable propagates at once.  Result: the closables (and finally the
folder close, named `folderName`) that actually ran, and the error if one
was raised. -/
def projectClose (closers : List (String × Option String)) (folderName : String) :
    List String × Option String :=
  match runClosers [] closers with
  | (ran, none) => (ran ++ [folderName], none)
  | (ran, some e) => (ran, some e)

/-- Test for the file-creation action: rotation reopens a fresh live file,
so a rotation inside `write_dict` is observable as a `create` action. -/
def isCreate : FsAction → Bool
  | .create _ => true
  | _ => false

/-- Result of `Source.queue_filenames()` over a queue directory that does not
exist: `os.walk` on a missing path yields no entries at all (it does not
raise), so the walk is empty. -/
def walkMissingDir : List (String × List δ) := []

end Queue

mutual

theorem wire_id : (v : PyValue) → tupleFree v = true → wire v = v
  | .nil, _ => rfl
  | .boolean _, _ => rfl
  | .int _, _ => rfl
  | .str _, _ => rfl
  | .list xs, h => by
      simp only [tupleFree] at h
      simp only [wire, wireL_id xs h]
  | .tuple _, h => by
      simp only [tupleFree] at h
      exact Bool.noConfusion h
  | .dict kvs, h => by
      simp only [tupleFree] at h
      simp only [wire, wireD_id kvs h]

theorem wireL_id : (xs : PyList) → tupleFreeL xs = true → wireL xs = xs
  | .nil, _ => rfl
  | .cons v rest, h => by
      simp only [tupleFreeL, Bool.and_eq_true] at h
      simp only [wireL, wire_id v h.1, wireL_id rest h.2]

theorem wireD_id : (kvs : PyDict) → tupleFreeD kvs = true → wireD kvs = kvs
  | .nil, _ => rfl
  | .cons k v rest, h => by
      simp only [tupleFreeD, Bool.and_eq_true] at h
      simp only [wireD, wire_id v h.1, wireD_id rest h.2]

end

namespace DiskCache

theorem teeGo_ok (xs : List PyValue) (h : ∀ v ∈ xs, isTuple v = false) :
    ∀ written yielded, teeGo written yielded xs = (some (written ++ xs), .ok (yielded ++ xs)) := by
  induction xs with
  | nil => intro w y; simp [teeGo]
  | cons v rest ih =>
      intro w y
      have hv : isTuple v = false := h v (List.mem_cons_self v rest)
      have hrest : ∀ u ∈ rest, isTuple u = false := fun u hu => h u (List.mem_cons_of_mem v hu)
      simp only [teeGo, hv, Bool.false_eq_true, if_false]
      rw [ih hrest]
      simp

theorem teeGo_err (xs : List PyValue) (h : ∀ u ∈ xs, isTuple u = false)
    (v : PyValue) (hv : isTuple v = true) (ys : List PyValue) :
    ∀ written yielded, teeGo written yielded (xs ++ v :: ys) = (none, .error tupleErrorMsg) := by
  induction xs with
  | nil => intro w y; simp [teeGo, hv]
  | cons u rest ih =>
      intro w y
      have hu : isTuple u = false := h u (List.mem_cons_self u rest)
      have hrest : ∀ x ∈ rest, isTuple x = false := fun x hx => h x (List.mem_cons_of_mem u hx)
      simp only [List.cons_append, teeGo, hu, Bool.false_eq_true, if_false]
      exact ih hrest _ _

theorem scan_id (xs : List PyValue) (h : ∀ v ∈ xs, tupleFree v = true) :
    scan xs = xs := by
  unfold scan
  induction xs with
  | nil => rfl
  | cons v rest ih =>
      simp only [List.map_cons]
      rw [wire_id v (h v (List.mem_cons_self v rest)),
        ih (fun u hu => h u (List.mem_cons_of_mem v hu))]

end DiskCache

namespace Queue

variable {δ : Type}

theorem write_dict_no_rotation (pack : δ → List Nat) (hexdigest : List Nat → String)
    (fmt : Nat → String) (s : SinkState) (d : δ) (now rotNow : Nat)
    (h : ¬ (s.lastOpenTime + s.headTimeoutSeconds < now)) :
    write_dict pack hexdigest fmt s d now rotNow
      = ({ s with outputIndex := s.outputIndex + 1, hashInput := s.hashInput ++ pack d },
         [FsAction.append s.outputPath (pack d)]) := by
  unfold write_dict
  simp [h]

theorem write_dict_rotation (pack : δ → List Nat) (hexdigest : List Nat → String)
    (fmt : Nat → String) (s : SinkState) (d : δ) (now rotNow : Nat)
    (h : s.lastOpenTime + s.headTimeoutSeconds < now) :
    write_dict pack hexdigest fmt s d now rotNow
      = ((sinkOpen s.basePath s.headTimeoutSeconds fmt rotNow).1,
         FsAction.append s.outputPath (pack d) ::
           (sinkClose hexdigest
              { s with outputIndex := s.outputIndex + 1, hashInput := s.hashInput ++ pack d }
            ++ (sinkOpen s.basePath s.headTimeoutSeconds fmt rotNow).2)) := by
  unfold write_dict
  simp [h]

theorem writeAll_no_rotation (pack : δ → List Nat) (hexdigest : List Nat → String)
    (fmt : Nat → String) (ds : List (δ × Nat × Nat)) :
    ∀ s : SinkState, (∀ x ∈ ds, ¬ (s.lastOpenTime + s.headTimeoutSeconds < x.2.1)) →
      writeAll pack hexdigest fmt s ds
        = ({ s with
              outputIndex := s.outputIndex + ds.length,
              hashInput := s.hashInput ++ (ds.map (fun x => pack x.1)).flatten },
           ds.map (fun x => FsAction.append s.outputPath (pack x.1))) := by
  induction ds with
  | nil =>
      intro s h
      simp [writeAll]
  | cons x rest ih =>
      intro s h
      obtain ⟨d, now, rotNow⟩ := x
      have hnow : ¬ (s.lastOpenTime + s.headTimeoutSeconds < now) := by
        simpa using h (d, now, rotNow) (List.mem_cons_self _ _)
      have hrest : ∀ x ∈ rest, ¬ (s.lastOpenTime + s.headTimeoutSeconds < x.2.1) :=
        fun x hx => h x (List.mem_cons_of_mem _ hx)
      obtain ⟨bp, ht, op, oi, hi, lt⟩ := s
      simp only [writeAll]
      rw [write_dict_no_rotation pack hexdigest fmt _ d now rotNow hnow]
      rw [ih _ (by simpa using hrest)]
      simp [Nat.add_assoc, Nat.add_comm 1, List.append_assoc]

theorem runClosers_ok (good : List (String × Option String))
    (h : ∀ c ∈ good, c.2 = none) :
    ∀ ran, runClosers ran good = (ran ++ good.map Prod.fst, none) := by
  induction good with
  | nil => intro ran; simp [runClosers]
  | cons c rest ih =>
      intro ran
      obtain ⟨name, e?⟩ := c
      have he : e? = none := h (name, e?) (List.mem_cons_self _ _)
      subst he
      rw [runClosers]
      rw [ih (fun c hc => h c (List.mem_cons_of_mem _ hc))]
      simp

theorem runClosers_fail (good : List (String × Option String))
    (h : ∀ c ∈ good, c.2 = none) (name e : String)
    (rest : List (String × Option String)) :
    ∀ ran, runClosers ran (good ++ (name, some e) :: rest)
      = (ran ++ good.map Prod.fst ++ [name], some e) := by
  induction good with
  | nil => intro ran; simp [runClosers]
  | cons c more ih =>
      intro ran
      obtain ⟨n, e?⟩ := c
      have he : e? = none := h (n, e?) (List.mem_cons_self _ _)
      subst he
      rw [List.cons_append, runClosers]
      rw [ih (fun c hc => h c (List.mem_cons_of_mem _ hc))]
      simp

end Queue


/-! ## Settling the claims -/

/-- Auxiliary: a deeply tuple-free value is in particular not a top-level
tuple, so neither `save` nor `tee` rejects it. -/
theorem isTuple_false_of_tupleFree (v : PyValue) (h : tupleFree v = true) :
    isTuple v = false := by
  cases v <;> simp_all [isTuple, tupleFree]

namespace DiskCache

/-- C1: replay identity of the cached iterator.  For a producer output `xs`
of codec-supported (deeply tuple-free, hence decoder-preserved) values, the
first call of the wrapped iterator (no cache file yet) yields exactly `xs`
while writing `xs` to the cache file, and a subsequent call with the same
arguments (cache file present) yields the same sequence read back from disk
without recomputation, so `list(cached(P)(A)) == list(cached(P)(A)) ==
list(P(A))`. -/
theorem cached_iter_replay_identity (xs : List PyValue)
    (h : ∀ v ∈ xs, tupleFree v = true) :
    cachedCall none xs = (some xs, .ok xs) ∧
    cachedCall (some xs) xs = (some xs, .ok xs) := by
  have hTop : ∀ v ∈ xs, isTuple v = false :=
    fun v hv => isTuple_false_of_tupleFree v (h v hv)
  constructor
  · show tee xs = _
    unfold tee
    rw [teeGo_ok xs hTop [] []]
    simp
  · show (some xs, Except.ok (scan xs)) = (some xs, Except.ok xs)
    rw [scan_id xs h]

/-- Witness for C1 at the concrete producer output `0, 1, 2` (scenario S1). -/
theorem cached_iter_replay_identity_witness :
    (∀ v ∈ [PyValue.int 0, PyValue.int 1, PyValue.int 2], tupleFree v = true) ∧
    (cachedCall none [PyValue.int 0, PyValue.int 1, PyValue.int 2]
        = (some [PyValue.int 0, PyValue.int 1, PyValue.int 2],
           .ok [PyValue.int 0, PyValue.int 1, PyValue.int 2]) ∧
      cachedCall (some [PyValue.int 0, PyValue.int 1, PyValue.int 2])
          [PyValue.int 0, PyValue.int 1, PyValue.int 2]
        = (some [PyValue.int 0, PyValue.int 1, PyValue.int 2],
           .ok [PyValue.int 0, PyValue.int 1, PyValue.int 2])) :=
  ⟨by decide, cached_iter_replay_identity _ (by decide)⟩

/-- C7 counterexample: the Python list `[(1, 2)]` — a tuple nested inside a
list — passes the top-level `isinstance(obj, tuple)` check of both `save`
and `tee`, so no `InvalidValue` is raised and the cache file is created and
kept; on decode the nested tuple is silently coerced to a list.  This
refutes the claim that values *containing* a composite ordered container are
rejected with no file remaining. -/
theorem nested_tuple_not_rejected :
    save none
        (PyValue.list (.cons (.tuple (.cons (.int 1) (.cons (.int 2) .nil))) .nil)) false
      = (some [PyValue.list (.cons (.tuple (.cons (.int 1) (.cons (.int 2) .nil))) .nil)],
         .ok ()) ∧
    tee [PyValue.list (.cons (.tuple (.cons (.int 1) (.cons (.int 2) .nil))) .nil)]
      = (some [PyValue.list (.cons (.tuple (.cons (.int 1) (.cons (.int 2) .nil))) .nil)],
         .ok [PyValue.list (.cons (.tuple (.cons (.int 1) (.cons (.int 2) .nil))) .nil)]) ∧
    scan [PyValue.list (.cons (.tuple (.cons (.int 1) (.cons (.int 2) .nil))) .nil)]
      = [PyValue.list (.cons (.list (.cons (.int 1) (.cons (.int 2) .nil))) .nil)] :=
  ⟨rfl, rfl, rfl⟩

/-- C7 amended: encoder rejection applies to *top-level* tuples only.  A
value that is itself a tuple makes blocking `save` raise `ValueError` before
the file is opened (cache state unchanged), and a yielded element that is
itself a tuple makes streaming `tee` raise `ValueError` after removing the
partial cache file; tuples nested inside other containers are not rejected. -/
theorem tuple_rejection_top_level_only (cache : Option (List PyValue))
    (obj : PyValue) (ap : Bool) (xs ys : List PyValue) (v : PyValue)
    (hobj : isTuple obj = true) (hv : isTuple v = true)
    (hxs : ∀ u ∈ xs, isTuple u = false) :
    save cache obj ap = (cache, .error tupleErrorMsg) ∧
    tee (xs ++ v :: ys) = (none, .error tupleErrorMsg) := by
  constructor
  · unfold save
    simp [hobj]
  · unfold tee
    exact teeGo_err xs hxs v hv ys [] []

/-- Witness for the amended C7 at the concrete inputs `save(loc, (,))` and
`tee([1, (,)], loc)`. -/
theorem tuple_rejection_top_level_only_witness :
    (isTuple (PyValue.tuple .nil) = true ∧
      (∀ u ∈ [PyValue.int 1], isTuple u = false)) ∧
    (save none (PyValue.tuple .nil) false = (none, .error tupleErrorMsg) ∧
      tee ([PyValue.int 1] ++ PyValue.tuple .nil :: []) = (none, .error tupleErrorMsg)) :=
  ⟨⟨rfl, by decide⟩,
    tuple_rejection_top_level_only none (PyValue.tuple .nil) false [PyValue.int 1] []
      (PyValue.tuple .nil) rfl rfl (by decide)⟩

/-- C10: `load(location)` returns only the decoded first record of the file,
even when the file holds further records (they are ignored), and returns
`None` rather than raising when the file does not exist. -/
theorem load_first_record_or_none :
    (∀ (v : PyValue) (rest : List PyValue), load (some (v :: rest)) = some (wire v)) ∧
    load none = none :=
  ⟨fun _ _ => rfl, rfl⟩

end DiskCache

namespace Queue

variable {δ : Type}

/-- C2: evaluation at the failing input.  Queue files `a` (one record) and
`b` (two records); the previous session delivered `k = 1` record, so the
checkpoint is `("a", 0)` and `continue_source` opens from `("a", 1)` — the
`+1` part of the claim holds.  But the new session then yields only
`("b", 1, 300)`: the `dropwhile` on the flattened record stream also drops
`("b", 0, 200)`, so the session does not deliver records `k..n-1`. -/
theorem continue_source_cross_file_loss :
    continueStart (lastAfter
        ((sourceIterate [("a", [(100 : Nat)]), ("b", [200, 300])] none).take 1))
      = some ("a", 1) ∧
    sourceIterate [("a", [(100 : Nat)]), ("b", [200, 300])] (some ("a", 1))
      = [("b", 1, 300)] ∧
    sourceIterate [("a", [(100 : Nat)]), ("b", [200, 300])] (some ("a", 1))
      ≠ (sourceIterate [("a", [(100 : Nat)]), ("b", [200, 300])] none).drop 1 :=
  ⟨by decide, by decide, by decide⟩

/-- C5: evaluation at the failing input.  The matching file `f` holds two
records and the cursor index is `2`, so the `dropwhile` over the flattened
stream keeps dropping into the next file `g` and discards its records with
index `< 2` — contradicting the claim that records with index `< idx` in
later files are still yielded. -/
theorem all_dict_from_drops_later_file_records :
    all_dict_from [("f", [(5 : Nat), 6]), ("g", [7, 8, 9])] "f" 2 = [("g", 2, 9)] ∧
    ("g", 0, 7) ∉ all_dict_from [("f", [(5 : Nat), 6]), ("g", [7, 8, 9])] "f" 2 ∧
    ("g", 1, 8) ∉ all_dict_from [("f", [(5 : Nat), 6]), ("g", [7, 8, 9])] "f" 2 :=
  ⟨by decide, by decide, by decide⟩

/-- C3: finalization.  Opening a sink and writing the dicts `ds` (at clock
readings that stay within the rotation timeout) leaves a record count of
`ds.length` and a running-hash input that is exactly the concatenation of
the packed bytes in write order; `close()` then renames the live file to its
timestamp path plus `"_"` plus the digest of those bytes when the count is
positive, and unlinks the file when the count is zero; no action of `open`
or of the writes is a rename, so only `close` transitions a file to a
hashed name. -/
theorem sink_close_finalization (pack : δ → List Nat) (hexdigest : List Nat → String)
    (fmt : Nat → String) (basePath : String) (timeout t0 : Nat)
    (ds : List (δ × Nat × Nat))
    (h : ∀ x ∈ ds, ¬ (t0 + timeout < x.2.1)) :
    ((writeAll pack hexdigest fmt (sinkOpen basePath timeout fmt t0).1 ds).1.outputIndex
        = ds.length ∧
      (writeAll pack hexdigest fmt (sinkOpen basePath timeout fmt t0).1 ds).1.hashInput
        = (ds.map (fun x => pack x.1)).flatten) ∧
    (ds ≠ [] →
      sinkClose hexdigest
          (writeAll pack hexdigest fmt (sinkOpen basePath timeout fmt t0).1 ds).1
        = [FsAction.rename (basePath ++ "/" ++ fmt t0)
            (basePath ++ "/" ++ fmt t0 ++ QUEUE_FILE_HASH_SEPARATOR
              ++ hexdigest ((ds.map (fun x => pack x.1)).flatten))]) ∧
    (ds = [] →
      sinkClose hexdigest
          (writeAll pack hexdigest fmt (sinkOpen basePath timeout fmt t0).1 ds).1
        = [FsAction.unlink (basePath ++ "/" ++ fmt t0)]) ∧
    (∀ a ∈ (sinkOpen basePath timeout fmt t0).2
        ++ (writeAll pack hexdigest fmt (sinkOpen basePath timeout fmt t0).1 ds).2,
      ∀ u w, a ≠ FsAction.rename u w) := by
  have hs0 : (sinkOpen basePath timeout fmt t0).1
      = ⟨basePath, timeout, basePath ++ "/" ++ fmt t0, 0, [], t0⟩ := rfl
  rw [hs0]
  rw [writeAll_no_rotation pack hexdigest fmt ds _ (by simpa using h)]
  refine ⟨⟨by simp, by simp⟩, ?_, ?_, ?_⟩
  · intro hne
    have hlen : 0 < ds.length := List.length_pos.mpr hne
    simp [sinkClose, hlen]
  · intro he
    subst he
    simp [sinkClose]
  · intro a ha u w
    simp only [sinkOpen, List.mem_append, List.mem_singleton, List.mem_map] at ha
    rcases ha with h1 | ⟨x, _, h2⟩
    · subst h1
      intro hcon
      cases hcon
    · subst h2
      intro hcon
      cases hcon

/-- Witness for C3 at a one-record write with concrete collaborators. -/
theorem sink_close_finalization_witness :
    (∀ x ∈ [((7 : Nat), 1, 1)], ¬ ((0 : Nat) + 600 < x.2.1)) ∧
    sinkClose (fun _ => "d")
        (writeAll (fun n : Nat => [n]) (fun _ => "d") (fun _ => "t")
          ((sinkOpen "q" 600 (fun _ => "t") 0).1) [((7 : Nat), 1, 1)]).1
      = [FsAction.rename ("q" ++ "/" ++ "t")
          ("q" ++ "/" ++ "t" ++ QUEUE_FILE_HASH_SEPARATOR ++ "d")] :=
  ⟨by decide,
    (sink_close_finalization (fun n : Nat => [n]) (fun _ => "d") (fun _ => "t") "q" 600 0
        [((7 : Nat), 1, 1)] (by decide)).2.1 (by decide)⟩

/-- C9 counterexample: with `last_open_time = 0` and
`head_timeout_seconds = 600`, a write at `now = 600` — elapsed time exactly
equal to the timeout — does not rotate: the comparison in `write_dict` is
the strict `last_open_time + head_timeout_seconds < now`, so the call emits
a single append action and no file creation, contradicting the claim that
rotation occurs when the elapsed time equals the timeout. -/
theorem write_dict_no_rotation_at_exact_timeout :
    write_dict (fun n : Nat => [n]) (fun _ => "d") (fun _ => "t")
        ((sinkOpen "q" 600 (fun _ => "t") 0).1) 5 600 600
      = (⟨"q", 600, "q" ++ "/" ++ "t", 1, [5], 0⟩,
         [FsAction.append ("q" ++ "/" ++ "t") [5]]) ∧
    (write_dict (fun n : Nat => [n]) (fun _ => "d") (fun _ => "t")
        ((sinkOpen "q" 600 (fun _ => "t") 0).1) 5 600 600).2.any isCreate = false :=
  ⟨rfl, rfl⟩

/-- C9 amended: during `write_dict`, after the record is packed, appended
and flushed, the sink rotates (close then reopen, observable as the creation
of a fresh live file) exactly when `now - last_open_time` is strictly
greater than `head_timeout_seconds`; at exact equality no rotation occurs. -/
theorem write_dict_rotation_strict_threshold (pack : δ → List Nat)
    (hexdigest : List Nat → String) (fmt : Nat → String)
    (s : SinkState) (d : δ) (now rotNow : Nat) :
    (write_dict pack hexdigest fmt s d now rotNow).2.any isCreate = true
      ↔ s.lastOpenTime + s.headTimeoutSeconds < now := by
  by_cases h : s.lastOpenTime + s.headTimeoutSeconds < now
  · rw [write_dict_rotation pack hexdigest fmt s d now rotNow h]
    simp only [h, iff_true]
    by_cases hidx : ({ s with
        outputIndex := s.outputIndex + 1,
        hashInput := s.hashInput ++ pack d } : SinkState).outputIndex > 0
    · simp [sinkClose, sinkOpen, isCreate, hidx]
    · simp [sinkClose, sinkOpen, isCreate, hidx]
  · rw [write_dict_no_rotation pack hexdigest fmt s d now rotNow h]
    simp [isCreate, h]

/-- C4: evaluation at the failing input.  On the queue `["2024/a",
"2024/b", "2024/c"]` with prefix `"2024/b"`, `unlink_to` deletes exactly the
one file preceding the first match and retains the match and its successor —
but its body ends without a `return`, so the call returns `None` (modelled
as the third component `none`), not the number of files unlinked, although
the repository test asserts `source.unlink_to() == 1`. -/
theorem unlink_to_returns_none :
    unlink_to ["2024/a", "2024/b", "2024/c"] none (some "2024/b")
      = .ok (["2024/b", "2024/c"], ["2024/a"], none) ∧
    (Except.ok (["2024/b", "2024/c"], ["2024/a"], (none : Option Nat))
        : Except String (List String × List String × Option Nat))
      ≠ .ok (["2024/b", "2024/c"], ["2024/a"], some 1) := by
  constructor
  · rfl
  · simp

/-- C6: evaluation at the failing input.  `Project("/tmp/p").open_source
("asfd")` with no directory `/tmp/p/queue/asfd` returns a `Source` over that
path instead of failing: neither `open_source` nor `Source.__init__`
performs an existence check, and iterating the returned source walks the
missing directory as empty (`os.walk` yields nothing), while the claim — and
the repository test `test_open_non_existing_source_should_raise` — demand a
`NotFound`/`ValueError` failure. -/
theorem open_source_no_existence_check :
    openSource "/tmp/p" "asfd" none = .ok ("/tmp/p/queue/asfd", none) ∧
    sourceIterate (walkMissingDir : List (String × List Nat)) none = [] :=
  ⟨rfl, rfl⟩

/-- C8 counterexample: with two registered closables of which the first
raises, `Project.close` runs only the first one: the second closable and the
root Folder close never run, and the error propagates immediately — not
after all others have run — contradicting the best-effort close claim. -/
theorem project_close_aborts_on_failure :
    projectClose [("a", some "boom"), ("b", none)] "rootfolder" = (["a"], some "boom") ∧
    "b" ∉ (projectClose [("a", some "boom"), ("b", none)] "rootfolder").1 ∧
    "rootfolder" ∉ (projectClose [("a", some "boom"), ("b", none)] "rootfolder").1 :=
  ⟨rfl, by decide, by decide⟩

/-- C8 amended: `Project.close` runs the registered closables in
registration order and then closes the root Folder, but a closable failure
aborts the remainder: when every closable succeeds, all of them and the
Folder close run in order; when one raises, exactly the closables up to and
including it have run, the rest and the Folder close are skipped, and that
first failure propagates. -/
theorem project_close_first_failure_propagates (good : List (String × Option String))
    (name e folderName : String) (rest : List (String × Option String))
    (hgood : ∀ c ∈ good, c.2 = none) :
    projectClose good folderName = (good.map Prod.fst ++ [folderName], none) ∧
    projectClose (good ++ (name, some e) :: rest) folderName
      = (good.map Prod.fst ++ [name], some e) := by
  constructor
  · unfold projectClose
    rw [runClosers_ok good hgood []]
    simp
  · unfold projectClose
    rw [runClosers_fail good hgood name e rest []]
    simp

/-- Witness for the amended C8 at one succeeding closable followed by a
failing one and a skipped one. -/
theorem project_close_first_failure_propagates_witness :
    (∀ c ∈ [("a", (none : Option String))], c.2 = none) ∧
    (projectClose [("a", none)] "root" = (["a", "root"], none) ∧
      projectClose ([("a", none)] ++ ("b", some "boom") :: [("c", none)]) "root"
        = (["a", "b"], some "boom")) :=
  ⟨by decide,
    project_close_first_failure_propagates [("a", none)] "b" "boom" "root" [("c", none)]
      (by decide)⟩

end Queue

end DQP
